import Mathlib

/-!
Verification of the CyberNewsHub backend (`backend/app.py` and the
categorizer modules) against its natural-language specification.

The Python source is shallowly embedded below: pure functions become Lean
functions over `String`/`List`, machine timestamps become `Int` seconds,
and the storage layer becomes explicit list state.
-/

namespace CyberNewsHub

/-! ## Python string primitives

Models of the Python string operations the backend relies on:
`str.lower`, substring containment (`in`), `str.endswith`, `str.find`,
`str.strip`, `str.title`.  All operate on ASCII data in the backend.
-/

/-- Python `str.lower` (ASCII). -/
def lowerStr (s : String) : String := String.mk (s.toList.map Char.toLower)

/-- `startsWithL needle hay` holds when `needle` is a prefix of `hay`. -/
def startsWithL : List Char → List Char → Bool
  | [], _ => true
  | _ :: _, [] => false
  | a :: as, b :: bs => a == b && startsWithL as bs

/-- `containsL needle hay`: Python `needle in hay` on strings. -/
def containsL (needle : List Char) : List Char → Bool
  | [] => needle.isEmpty
  | c :: rest => startsWithL needle (c :: rest) || containsL needle rest

/-- Python `needle in hay` for strings. -/
def substr (needle hay : String) : Bool := containsL needle.toList hay.toList

/-- Python `hay.endswith suffix`. -/
def endsWithStr (hay suffix : String) : Bool :=
  startsWithL suffix.toList.reverse hay.toList.reverse

/-- Python `hay.find needle` (index of first occurrence). -/
def firstIdx (needle : List Char) : List Char → Option Nat
  | [] => if needle.isEmpty then some 0 else none
  | c :: rest =>
      if startsWithL needle (c :: rest) then some 0
      else (firstIdx needle rest).map (· + 1)

/-- Python `str.strip` (whitespace at both ends). -/
def stripStr (s : String) : String :=
  let l := s.toList.dropWhile Char.isWhitespace
  String.mk (l.reverse.dropWhile Char.isWhitespace).reverse

/-- Python `str.title` helper: walks the characters carrying whether the
previous character was alphabetic. -/
def titleChars : Bool → List Char → List Char
  | _, [] => []
  | prevAlpha, c :: rest =>
      let c' := if c.isAlpha then (if prevAlpha then c.toLower else c.toUpper) else c
      c' :: titleChars c.isAlpha rest

/-- Python `str.title`. -/
def titleStr (s : String) : String := String.mk (titleChars false s.toList)

/-- `anySub terms s`: Python `any(term in s for term in terms)`. -/
def anySub (terms : List String) (s : String) : Bool := terms.any (fun t => substr t s)

/-- Number of keywords of `kws` occurring (as substrings) in `text`. -/
def hits (kws : List String) (text : String) : Nat :=
  (kws.filter (fun k => substr k text)).length

/-! ## ContentClassifier: keyword scorer (`categorize_content`, app.py 580-767) -/

def strongEventKeywords : List String :=
  ["conference", "summit", "webinar", "workshop", "symposium", "expo", "exhibition",
   "rsvp", "register now", "register today", "early bird", "tickets", "agenda",
   "keynote speaker", "call for papers", "cfp", "submit abstract",
   "conference report", "event report", "conference coverage", "event coverage"]

def mediumEventKeywords : List String :=
  ["event", "meetup", "training", "bootcamp", "session", "presentation",
   "virtual event", "online event", "live event", "networking",
   "announcement", "announcing", "upcoming event"]

def eventPhrases : List String :=
  ["save the date", "join us", "don\x27t miss", "coming soon",
   "speaker lineup", "event schedule", "conference program"]

def eventUrlTerms : List String :=
  ["/event", "/conference", "/webinar", "/workshop", "/summit", "/training"]

def strongResearchKeywords : List String :=
  ["research paper", "whitepaper", "technical research", "academic paper",
   "published research", "peer-reviewed", "research findings", "scientific study",
   "latest research", "new research", "research publication"]

def mediumResearchKeywords : List String :=
  ["research", "study", "findings", "discovered",
   "deep dive", "technical analysis", "threat analysis", "malware analysis",
   "reverse engineering", "vulnerability research", "security research"]

def researchPhrases : List String :=
  ["our research shows", "we discovered", "we found that", "analysis reveals",
   "according to our research", "research indicates", "study shows",
   "research reveals", "findings show"]

def researchUrlTerms : List String := ["/research", "/study", "/whitepaper", "/paper"]

def researchSourceTerms : List String :=
  ["research", "lab", "citizen lab", "check point research"]

def strongAlertKeywords : List String :=
  ["threat alert", "attack alert", "threat advisory", "attack advisory",
   "active attack", "ongoing attack", "attack campaign", "threat campaign",
   "malware campaign", "ransomware alert", "phishing alert", "apt alert",
   "threat actor", "attack group", "threat group", "call attention",
   "be aware of", "watch out for", "new attack", "emerging threat"]

def mediumAlertKeywords : List String :=
  ["alert", "advisory", "warning", "threat warning", "attack warning",
   "security alert", "critical alert", "urgent alert",
   "newsletter", "threat intelligence", "threat update"]

def alertPhrases : List String :=
  ["calls attention", "draws attention", "highlights threat", "warns about",
   "alert about", "advisory about", "threat targeting", "attack targeting",
   "be on the lookout", "be vigilant", "exercise caution"]

def alertVulnTerms : List String := ["cve-", "vulnerability", "exploit", "zero-day", "0-day"]

def alertUrlTerms : List String := ["/alert", "/advisory", "/warning", "/threat", "/newsletter"]

def alertSourceTerms : List String := ["cisa", "us-cert", "ncsc", "cert", "enisa", "cccs"]

def newsKeywords : List String :=
  ["incident", "breach", "data breach", "cyber attack", "hacked", "hacking",
   "compromised", "leak", "data leak", "ransomware attack", "malware attack",
   "latest news", "breaking news", "reported", "announced", "disclosed",
   "victim", "affected", "impacted", "stolen", "exposed"]

def newsPhrases : List String :=
  ["has been breached", "has been hacked", "was compromised", "fell victim",
   "reported a breach", "announced an incident", "disclosed an attack"]

def newsUrlTerms : List String := ["/news", "/article", "/post", "/blog"]

/-- `re.search(r'cve-\d{4}-\d+', text)` tested at one position. -/
def cveAt : List Char → Bool
  | 'c' :: 'v' :: 'e' :: '-' :: d1 :: d2 :: d3 :: d4 :: '-' :: d5 :: _ =>
      d1.isDigit && d2.isDigit && d3.isDigit && d4.isDigit && d5.isDigit
  | _ => false

/-- `re.search(r'cve-\d{4}-\d+', text)` over the whole text. -/
def cveSearch : List Char → Bool
  | [] => false
  | c :: rest => cveAt (c :: rest) || cveSearch rest

def eventScore (text url : String) : Nat :=
  3 * hits strongEventKeywords text + 2 * hits mediumEventKeywords text +
    2 * hits eventPhrases text + (if anySub eventUrlTerms url then 3 else 0)

def researchScoreBase (text url source : String) : Nat :=
  3 * hits strongResearchKeywords text + 2 * hits mediumResearchKeywords text +
    2 * hits researchPhrases text + (if anySub researchUrlTerms url then 3 else 0) +
    (if anySub researchSourceTerms source then 1 else 0)

def alertScore (text url source : String) : Nat :=
  4 * hits strongAlertKeywords text + 2 * hits mediumAlertKeywords text +
    3 * hits alertPhrases text + (if cveSearch text.toList then 3 else 0) +
    (if anySub alertVulnTerms text then 2 else 0) +
    (if anySub alertUrlTerms url then 3 else 0) +
    (if anySub alertSourceTerms source then 2 else 0)

def newsScoreBase (text url : String) : Nat :=
  2 * hits newsKeywords text + 3 * hits newsPhrases text +
    (if anySub newsUrlTerms url then 1 else 0)

/-- Negative-keyword pass: incident/breach text with no alert language boosts News. -/
def incidentNewsBoost (text : String) : Bool :=
  (substr "incident" text || substr "breach" text) &&
    (!substr "alert" text && !substr "advisory" text && !substr "threat" text)

/-- Negative-keyword pass: "research" alongside "news"/"report" without a strong
research phrase penalizes Research and boosts News. -/
def researchNewsPenalty (text : String) : Bool :=
  substr "research" text &&
    ((substr "news" text || substr "report" text) &&
      (!substr "research paper" text && !substr "whitepaper" text &&
        !substr "findings" text))

structure Scores where
  event : Int
  research : Int
  alert : Int
  news : Int
deriving DecidableEq

/-- The four accumulated keyword scores of `categorize_content`. -/
def scoresOf (title description source url : String) : Scores :=
  let text := lowerStr (title ++ " " ++ description)
  let urlL := lowerStr url
  let sourceL := lowerStr source
  let e : Nat := eventScore text urlL
  let rBase : Nat := researchScoreBase text urlL sourceL
  let a : Nat := alertScore text urlL sourceL
  let n1 : Nat := newsScoreBase text urlL + (if incidentNewsBoost text then 1 else 0)
  if researchNewsPenalty text then
    ⟨(e : Int), (rBase : Int) - 1, (a : Int), (n1 : Int) + 1⟩
  else
    ⟨(e : Int), (rBase : Int), (a : Int), (n1 : Int)⟩

def maxScore (s : Scores) : Int := max (max s.event s.research) (max s.alert s.news)

/-- Final category selection of `categorize_content`: zero max defaults to News,
otherwise the first category in priority order Alert, Research, Event, News
whose score equals the maximum. -/
def pickCategory (s : Scores) : String :=
  if maxScore s = 0 then "News"
  else if s.alert = maxScore s then "Alert"
  else if s.research = maxScore s then "Research"
  else if s.event = maxScore s then "Event"
  else if s.news = maxScore s then "News"
  else "News"

/-- `categorize_content(title, description, source, url)` from app.py.
Absent inputs are modelled as `""` (Python falsy). -/
def categorize_content (title description source url : String) : String :=
  if title = "" then "News"
  else pickCategory (scoresOf title description source url)

/-! ### Claim C4: the scorer as described by the spec

`claimC4Pick` is written from the spec's words: the winner is the category
with the highest accumulated score, ties broken by the fixed priority
Alert > Research > Event > News, and an all-zero tie defaults to News. -/

def claimC4Pick (s : Scores) : String :=
  if s.event = 0 ∧ s.research = 0 ∧ s.alert = 0 ∧ s.news = 0 then "News"
  else if s.alert = maxScore s then "Alert"
  else if s.research = maxScore s then "Research"
  else if s.event = maxScore s then "Event"
  else "News"

def claimC4Spec (title description source url : String) : String :=
  if title = "" then "News"
  else claimC4Pick (scoresOf title description source url)

theorem hits_pos_of_mem {k : String} {kws : List String} {text : String}
    (hk : k ∈ kws) (hs : substr k text = true) : 1 ≤ hits kws text := by
  have hmem : k ∈ kws.filter (fun k => substr k text) := List.mem_filter.mpr ⟨hk, hs⟩
  simpa [hits, Nat.succ_le_iff] using List.length_pos_of_mem hmem

theorem researchNewsPenalty_substr {text : String} (h : researchNewsPenalty text = true) :
    substr "research" text = true := by
  have := (Bool.and_eq_true _ _).mp h
  exact this.1

/-- Every accumulated score of the keyword scorer is non-negative: the only
subtraction (the Research penalty) fires only when the keyword "research"
itself already contributed at least 2 to the Research score. -/
theorem scoresOf_nonneg (title description source url : String) :
    0 ≤ (scoresOf title description source url).event ∧
      0 ≤ (scoresOf title description source url).research ∧
      0 ≤ (scoresOf title description source url).alert ∧
      0 ≤ (scoresOf title description source url).news := by
  by_cases hp : researchNewsPenalty (lowerStr (title ++ " " ++ description)) = true
  · have h1 : substr "research" (lowerStr (title ++ " " ++ description)) = true :=
      researchNewsPenalty_substr hp
    have h2 : "research" ∈ mediumResearchKeywords := by decide
    have h3 : 1 ≤ hits mediumResearchKeywords (lowerStr (title ++ " " ++ description)) :=
      hits_pos_of_mem h2 h1
    have h4 : 2 ≤ researchScoreBase (lowerStr (title ++ " " ++ description))
        (lowerStr url) (lowerStr source) := by
      unfold researchScoreBase
      omega
    refine ⟨?_, ?_, ?_, ?_⟩ <;> (simp [scoresOf, hp] <;> omega)
  · rw [Bool.not_eq_true] at hp
    refine ⟨?_, ?_, ?_, ?_⟩ <;> (simp [scoresOf, hp] <;> omega)

theorem pickCategory_eq_claimC4Pick (s : Scores) (he : 0 ≤ s.event) (hr : 0 ≤ s.research)
    (ha : 0 ≤ s.alert) (hn : 0 ≤ s.news) : pickCategory s = claimC4Pick s := by
  have l1 : s.event ≤ maxScore s := le_trans (le_max_left _ _) (le_max_left _ _)
  have l2 : s.research ≤ maxScore s := le_trans (le_max_right _ _) (le_max_left _ _)
  have l3 : s.alert ≤ maxScore s := le_trans (le_max_left _ _) (le_max_right _ _)
  have l4 : s.news ≤ maxScore s := le_trans (le_max_right _ _) (le_max_right _ _)
  by_cases hz : s.event = 0 ∧ s.research = 0 ∧ s.alert = 0 ∧ s.news = 0
  · obtain ⟨h1, h2, h3, h4⟩ := hz
    have hm : maxScore s = 0 := by simp [maxScore, h1, h2, h3, h4]
    simp [pickCategory, claimC4Pick, hm, h1, h2, h3, h4]
  · have hm : ¬ maxScore s = 0 := by
      intro h0
      rw [h0] at l1 l2 l3 l4
      exact hz ⟨le_antisymm l1 he, le_antisymm l2 hr, le_antisymm l3 ha, le_antisymm l4 hn⟩
    rw [pickCategory, claimC4Pick, if_neg hm, if_neg hz]
    simp only [ite_self]

/-- Claim C4: `categorize_content` returns the category with the highest
accumulated keyword score, ties broken by the fixed priority
Alert > Research > Event > News; all four scores zero, or an absent title,
yields "News". -/
theorem categorize_content_matches_claimC4 (title description source url : String) :
    categorize_content title description source url =
      claimC4Spec title description source url := by
  unfold categorize_content claimC4Spec
  by_cases h : title = ""
  · simp [h]
  · rw [if_neg h, if_neg h]
    obtain ⟨he, hr, ha, hn⟩ := scoresOf_nonneg title description source url
    exact pickCategory_eq_claimC4Pick _ he hr ha hn

/-! ## GeoAttributor (`get_country_region`, app.py 269-578) -/

/-- Python `set.add`: the set of countries is modelled as a duplicate-free
list; insertion order is irrelevant because the result is sorted. -/
def insertSet (x : String) (s : List String) : List String :=
  if x ∈ s then s else s ++ [x]

/-- Python `set.discard`. -/
def discardSet (x : String) (s : List String) : List String :=
  s.filter (fun y => decide (y ≠ x))

/-- The `special_cases` table of `capitalize_country_name`. -/
def specialCases : List (String × String) :=
  [("united states", "United States"), ("united kingdom", "United Kingdom"),
   ("european union", "European Union"), ("south korea", "South Korea"),
   ("new zealand", "New Zealand"), ("south africa", "South Africa"),
   ("united arab emirates", "United Arab Emirates"), ("saudi arabia", "Saudi Arabia")]

/-- `capitalize_country_name(country)` from app.py. -/
def capitalize_country_name (country : String) : String :=
  if country = "" then country
  else
    match specialCases.lookup (stripStr (lowerStr country)) with
    | some v => v
    | none => titleStr country

/-- The `tld_to_country` table, in source order. -/
def tldTable : List (String × String) :=
  [(".us", "United States"), (".uk", "United Kingdom"), (".ca", "Canada"),
   (".au", "Australia"), (".de", "Germany"), (".fr", "France"), (".it", "Italy"),
   (".es", "Spain"), (".nl", "Netherlands"), (".se", "Sweden"), (".no", "Norway"),
   (".fi", "Finland"), (".dk", "Denmark"), (".pl", "Poland"), (".jp", "Japan"),
   (".cn", "China"), (".kr", "South Korea"), (".in", "India"), (".sg", "Singapore"),
   (".nz", "New Zealand"), (".ie", "Ireland"), (".ch", "Switzerland"),
   (".at", "Austria"), (".be", "Belgium"), (".il", "Israel"), (".ru", "Russia"),
   (".br", "Brazil"), (".mx", "Mexico"), (".za", "South Africa"),
   (".ae", "United Arab Emirates"), (".sa", "Saudi Arabia"), (".ar", "Argentina"),
   (".cl", "Chile"), (".co", "Colombia"), (".pe", "Peru"), (".ve", "Venezuela"),
   (".uy", "Uruguay"), (".py", "Paraguay"), (".bo", "Bolivia"), (".ec", "Ecuador"),
   (".id", "Indonesia"), (".tr", "Turkey"), (".bg", "Bulgaria"), (".hr", "Croatia"),
   (".cy", "Cyprus"), (".cz", "Czech Republic"), (".ee", "Estonia"),
   (".gr", "Greece"), (".hu", "Hungary"), (".lv", "Latvia"), (".lt", "Lithuania"),
   (".lu", "Luxembourg"), (".mt", "Malta"), (".pt", "Portugal"), (".ro", "Romania"),
   (".sk", "Slovakia"), (".si", "Slovenia"), (".th", "Thailand"), (".vn", "Vietnam"),
   (".ph", "Philippines"), (".my", "Malaysia"), (".tw", "Taiwan"), (".eg", "Egypt"),
   (".ng", "Nigeria"), (".ke", "Kenya"), (".ma", "Morocco"), (".tn", "Tunisia"),
   (".dz", "Algeria"), (".pk", "Pakistan"), (".bd", "Bangladesh"),
   (".lk", "Sri Lanka"), (".mm", "Myanmar"), (".kh", "Cambodia"), (".la", "Laos")]

/-- Boundary group `(/|$|\?|#)` of the TLD regular expression. -/
def tldBoundary : List Char → Bool
  | [] => true
  | c :: _ => c == '/' || c == '?' || c == '#'

/-- `re.search(r'\.' + tld[1:] + r'(/|$|\?|#)', url)`: somewhere in the URL a
dot is followed by the TLD body and then a path/query/fragment boundary or
the end of the string. -/
def tldDotMatch (body : List Char) : List Char → Bool
  | [] => false
  | c :: rest =>
      (c == '.' && startsWithL body rest && tldBoundary (rest.drop body.length)) ||
        tldDotMatch body rest

/-- The TLD test of app.py line 372: `url_lower.endswith(tld)` or the anchored
regular-expression search. -/
def tldMatch (tld urlL : String) : Bool :=
  endsWithStr urlL tld || tldDotMatch (tld.toList.drop 1) urlL.toList

/-- First itmedia check (app.py 365-366): adds Japan. -/
def itmediaFirst (sourceL urlL : String) (s : List String) : List String :=
  if substr "itmedia" sourceL || substr "itmedia.co.jp" urlL then insertSet "Japan" s else s

/-- TLD layer (app.py 369-376): each matching TLD adds its country, except
that `.it` is skipped when the URL contains "itmedia". -/
def tldLayer (urlL : String) (s : List String) : List String :=
  tldTable.foldl
    (fun acc p =>
      if tldMatch p.1 urlL then
        (if p.1 == ".it" && substr "itmedia" urlL then acc else insertSet p.2 acc)
      else acc)
    s

/-- Government-source layer (app.py 379-394). -/
def govLayer (sourceL urlL : String) (s : List String) : List String :=
  let s1 := if substr "cisa" sourceL || substr "us-cert" sourceL then
    insertSet "United States" s else s
  let s2 := if substr ".gov" urlL && !substr ".gov.uk" urlL && !substr ".gov.au" urlL &&
      !substr ".gc.ca" urlL then insertSet "United States" s1 else s1
  let s3 := if substr "ncsc" sourceL || substr ".gov.uk" urlL then
    insertSet "United Kingdom" s2 else s2
  let s4 := if substr "enisa" sourceL || substr "cert-eu" sourceL ||
      substr "europa.eu" urlL then insertSet "European Union" s3 else s3
  let s5 := if (substr "csa" sourceL && substr "singapore" sourceL) ||
      substr ".gov.sg" urlL then insertSet "Singapore" s4 else s4
  if substr "cyber.gc.ca" urlL || substr "cccs" sourceL || substr ".gc.ca" urlL then
    insertSet "Canada" s5 else s5

/-- Source-specific itmedia handling (app.py 398-401): adds Japan and
discards any Italy previously added by the TLD layer. -/
def itmediaSecond (sourceL urlL : String) (s : List String) : List String :=
  if substr "itmedia" sourceL || substr "itmedia.co.jp" urlL then
    discardSet "Italy" (insertSet "Japan" s)
  else s

def usVendors : List String :=
  ["microsoft", "google", "cisco", "palo alto", "crowdstrike", "cloudflare",
   "fireeye", "mandiant", "proofpoint", "zscaler", "okta", "splunk",
   "rapid7", "tenable", "qualys", "fortinet", "trend micro", "symantec",
   "mcafee", "ibm security", "oracle security", "salesforce", "aws",
   "azure", "github security", "twitter security", "meta security", "facebook security"]

def ukVendors : List String := ["sophos", "darktrace", "bae systems"]

def israelVendors : List String := ["check point", "cyberark", "sentinelone", "cybereason"]

def russiaVendors : List String := ["kaspersky"]

def japanVendors : List String := ["trend micro", "jpcert"]

/-- One vendor loop: `for vendor in vendors: if vendor in source: add(country)`. -/
def vendorFold (country : String) (vendors : List String) (sourceL : String)
    (s : List String) : List String :=
  vendors.foldl (fun acc v => if substr v sourceL then insertSet country acc else acc) s

/-- Vendor-location layer (app.py 404-438). -/
def vendorLayer (sourceL : String) (s : List String) : List String :=
  vendorFold "Japan" japanVendors sourceL
    (vendorFold "Russia" russiaVendors sourceL
      (vendorFold "Israel" israelVendors sourceL
        (vendorFold "United Kingdom" ukVendors sourceL
          (vendorFold "United States" usVendors sourceL s))))

/-- Research-lab layer (app.py 441-445). -/
def researchLayer (sourceL urlL : String) (s : List String) : List String :=
  let s1 := if substr "citizenlab" sourceL || substr "citizenlab.ca" urlL then
    insertSet "Canada" s else s
  if substr "check point research" sourceL then insertSet "Israel" s1 else s1

/-- The `country_patterns` table (dict order; the duplicate `Brazil` key keeps
its first position with the last assigned pattern list, as in Python). -/
def countryPatterns : List (String × List String) :=
  [("United States", ["united states", "usa", "u.s.", "u.s.a.", "america", "american",
      "us government", "fbi", "cia", "nsa", "dhs"]),
   ("Canada", ["canada", "canadian", "canadian government", "rcmp"]),
   ("United Kingdom", ["united kingdom", "uk", "u.k.", "britain", "british",
      "uk government", "gchq"]),
   ("Australia", ["australia", "australian", "australian government", "acsc"]),
   ("Germany", ["germany", "german", "bsi"]),
   ("France", ["france", "french", "anssi"]),
   ("Japan", ["japan", "japanese", "japan government"]),
   ("China", ["china", "chinese", "beijing"]),
   ("Russia", ["russia", "russian", "moscow", "kremlin"]),
   ("Israel", ["israel", "israeli", "tel aviv"]),
   ("Singapore", ["singapore", "singaporean"]),
   ("South Korea", ["south korea", "korean", "seoul"]),
   ("India", ["india", "indian", "new delhi"]),
   ("Brazil", ["brazil", "brazilian", "brasil", "são paulo", "rio de janeiro"]),
   ("Netherlands", ["netherlands", "dutch", "amsterdam"]),
   ("Sweden", ["sweden", "swedish", "stockholm"]),
   ("Norway", ["norway", "norwegian", "oslo"]),
   ("Finland", ["finland", "finnish", "helsinki"]),
   ("Denmark", ["denmark", "danish", "copenhagen"]),
   ("Poland", ["poland", "polish", "warsaw"]),
   ("Italy", ["italy", "italian", "rome"]),
   ("Spain", ["spain", "spanish", "madrid"]),
   ("Switzerland", ["switzerland", "swiss", "bern"]),
   ("New Zealand", ["new zealand", "nz", "wellington"]),
   ("Ireland", ["ireland", "irish", "dublin"]),
   ("South Africa", ["south africa", "south african"]),
   ("European Union", ["european union", "eu", "europe", "european commission", "brussels"]),
   ("Argentina", ["argentina", "argentine", "argentinian", "buenos aires"]),
   ("Chile", ["chile", "chilean", "santiago"]),
   ("Colombia", ["colombia", "colombian", "bogota"]),
   ("Mexico", ["mexico", "mexican", "mexico city"]),
   ("Peru", ["peru", "peruvian", "lima"]),
   ("Indonesia", ["indonesia", "indonesian", "jakarta"]),
   ("Turkey", ["turkey", "turkish", "türkiye", "ankara", "istanbul"]),
   ("Bulgaria", ["bulgaria", "bulgarian", "sofia"]),
   ("Croatia", ["croatia", "croatian", "zagreb"]),
   ("Cyprus", ["cyprus", "cypriot", "nicosia"]),
   ("Czech Republic", ["czech republic", "czech", "prague"]),
   ("Estonia", ["estonia", "estonian", "tallinn"]),
   ("Greece", ["greece", "greek", "athens"]),
   ("Hungary", ["hungary", "hungarian", "budapest"]),
   ("Latvia", ["latvia", "latvian", "riga"]),
   ("Lithuania", ["lithuania", "lithuanian", "vilnius"]),
   ("Luxembourg", ["luxembourg", "luxembourgish", "luxembourg city"]),
   ("Malta", ["malta", "maltese", "valletta"]),
   ("Portugal", ["portugal", "portuguese", "lisbon"]),
   ("Romania", ["romania", "romanian", "bucharest"]),
   ("Slovakia", ["slovakia", "slovak", "bratislava"]),
   ("Slovenia", ["slovenia", "slovenian", "ljubljana"]),
   ("Thailand", ["thailand", "thai", "bangkok"]),
   ("Vietnam", ["vietnam", "vietnamese", "hanoi", "ho chi minh"]),
   ("Philippines", ["philippines", "filipino", "manila"]),
   ("Malaysia", ["malaysia", "malaysian", "kuala lumpur"]),
   ("Taiwan", ["taiwan", "taiwanese", "taipei"]),
   ("Egypt", ["egypt", "egyptian", "cairo"]),
   ("Nigeria", ["nigeria", "nigerian", "lagos", "abuja"]),
   ("Kenya", ["kenya", "kenyan", "nairobi"]),
   ("Morocco", ["morocco", "moroccan", "rabat"]),
   ("Tunisia", ["tunisia", "tunisian", "tunis"]),
   ("Algeria", ["algeria", "algerian", "algiers"]),
   ("Pakistan", ["pakistan", "pakistani", "islamabad", "karachi"]),
   ("Bangladesh", ["bangladesh", "bangladeshi", "dhaka"]),
   ("Sri Lanka", ["sri lanka", "sri lankan", "colombo"]),
   ("Myanmar", ["myanmar", "burma", "burmese", "yangon"]),
   ("Cambodia", ["cambodia", "cambodian", "phnom penh"]),
   ("Laos", ["laos", "laotian", "vientiane"]),
   ("Venezuela", ["venezuela", "venezuelan", "caracas"]),
   ("Uruguay", ["uruguay", "uruguayan", "montevideo"]),
   ("Paraguay", ["paraguay", "paraguayan", "asuncion"]),
   ("Bolivia", ["bolivia", "bolivian", "la paz"]),
   ("Ecuador", ["ecuador", "ecuadorian", "quito"])]

def contextWords : List String :=
  ["government", "authorities", "officials", "agency", "ministry",
   "targeted", "attacked", "breach", "incident", "cyber", "security"]

/-- Context check of the content layer: a context word within 50 characters
of the first occurrence of `pattern` in `content`. -/
def contextOk (pattern content : String) : Bool :=
  match firstIdx pattern.toList content.toList with
  | none => false
  | some pos =>
      let cl := content.toList
      let start := pos - 50
      let stop := min cl.length (pos + pattern.toList.length + 50)
      let ctx := (cl.drop start).take (stop - start)
      contextWords.any (fun w => containsL w.toList ctx)

/-- One country of the content layer matches when some pattern occurs in the
content with a context word nearby. -/
def countryHit (pattern content : String) : Bool :=
  substr pattern content && contextOk pattern content

/-- Content-pattern layer (app.py 529-547): only consulted when fewer than 3
countries have matched so far. -/
def contentLayer (content : String) (s : List String) : List String :=
  if s.length < 3 then
    countryPatterns.foldl
      (fun acc p => if p.2.any (fun pat => countryHit pat content) then insertSet p.1 acc
        else acc)
      s
  else s

/-- The `url_patterns` table (app.py 551-562). -/
def urlPatternTable : List (String × List String) :=
  [("United States", [".gov/", "cisa.gov", "us-cert.gov", "fbi.gov", "cia.gov", "nsa.gov"]),
   ("United Kingdom", [".gov.uk", "ncsc.gov.uk", "gchq.gov.uk"]),
   ("Canada", [".gc.ca", "cyber.gc.ca", "canada.ca"]),
   ("Australia", [".gov.au", "cyber.gov.au", "acsc.gov.au"]),
   ("Germany", [".de/", "bsi.bund.de"]),
   ("France", [".fr/", "ssi.gouv.fr"]),
   ("Japan", [".go.jp", ".jp/"]),
   ("Singapore", [".gov.sg", "csa.gov.sg"]),
   ("Israel", [".gov.il", ".il/"]),
   ("European Union", ["europa.eu", "enisa.europa.eu"])]

/-- URL-pattern layer (app.py 564-566). -/
def urlPatternLayer (urlL : String) (s : List String) : List String :=
  urlPatternTable.foldl
    (fun acc p => if p.2.any (fun pat => substr pat urlL) then insertSet p.1 acc else acc)
    s

/-- The set of countries accumulated by `get_country_region` before rendering. -/
def countriesOf (source_name url title description : String) : List String :=
  let sourceL := lowerStr source_name
  let urlL := lowerStr url
  let contentL := stripStr (lowerStr title ++ " " ++ lowerStr description)
  urlPatternLayer urlL
    (contentLayer contentL
      (researchLayer sourceL urlL
        (vendorLayer sourceL
          (itmediaSecond sourceL urlL
            (govLayer sourceL urlL
              (tldLayer urlL
                (itmediaFirst sourceL urlL [])))))))

/-- Lexicographic (code-point) order on strings, as Python `sorted` uses. -/
def lexLt : List Char → List Char → Bool
  | [], [] => false
  | [], _ :: _ => true
  | _ :: _, [] => false
  | a :: as, b :: bs => decide (a.toNat < b.toNat) || (a == b && lexLt as bs)

def strLe (a b : String) : Bool := a == b || lexLt a.toList b.toList

def insertSorted (x : String) : List String → List String
  | [] => [x]
  | y :: ys => if strLe x y then x :: y :: ys else y :: insertSorted x ys

/-- Python `sorted` on a list of strings (insertion sort, ascending). -/
def sortStr (l : List String) : List String := l.foldr insertSorted []

/-- `get_country_region(source_name, url, title, description)` from app.py. -/
def get_country_region (source_name url title description : String) : String :=
  match countriesOf source_name url title description with
  | [] => "Global"
  | [c] => capitalize_country_name c
  | cs => String.intercalate ", " ((sortStr cs).map capitalize_country_name)

/-! ### Set-accumulation lemmas for the geo layers -/

theorem mem_insertSet_self (x : String) (s : List String) : x ∈ insertSet x s := by
  unfold insertSet
  split
  · assumption
  · simp

theorem mem_insertSet_of_mem {y : String} (x : String) {s : List String} (h : y ∈ s) :
    y ∈ insertSet x s := by
  unfold insertSet
  split
  · exact h
  · simp [h]

theorem mem_of_mem_insertSet {y x : String} {s : List String} (h : y ∈ insertSet x s) :
    y = x ∨ y ∈ s := by
  unfold insertSet at h
  split at h
  · exact Or.inr h
  · rcases List.mem_append.mp h with h' | h'
    · exact Or.inr h'
    · exact Or.inl (List.mem_singleton.mp h')

theorem not_mem_insertSet {x c : String} (hne : x ≠ c) {s : List String} (hs : x ∉ s) :
    x ∉ insertSet c s := by
  intro h
  rcases mem_of_mem_insertSet h with h' | h'
  · exact hne h'
  · exact hs h'

theorem not_mem_discardSet_self (x : String) (s : List String) : x ∉ discardSet x s := by
  intro h
  have := (List.mem_filter.mp h).2
  simp at this

theorem mem_discardSet_of_ne {y x : String} {s : List String} (hne : y ≠ x) (h : y ∈ s) :
    y ∈ discardSet x s :=
  List.mem_filter.mpr ⟨h, decide_eq_true hne⟩

theorem mem_foldl_of_mem {α : Type} {x : String} {f : List String → α → List String}
    (hf : ∀ acc a, x ∈ acc → x ∈ f acc a) :
    ∀ (l : List α) (s : List String), x ∈ s → x ∈ l.foldl f s := by
  intro l
  induction l with
  | nil => intro s h; exact h
  | cons a rest ih => intro s h; exact ih _ (hf s a h)

theorem mem_foldl_of_elem {α : Type} [DecidableEq α] {x : String}
    {f : List String → α → List String}
    (hmono : ∀ acc a, x ∈ acc → x ∈ f acc a) {l : List α} {a : α} (ha : a ∈ l)
    (hstep : ∀ acc, x ∈ f acc a) : ∀ s, x ∈ l.foldl f s := by
  induction l with
  | nil => cases ha
  | cons b rest ih =>
      intro s
      by_cases hab : a = b
      · subst hab
        exact mem_foldl_of_mem hmono rest (f s a) (hstep s)
      · have ha' : a ∈ rest := by
          rcases List.mem_cons.mp ha with h | h
          · exact absurd h hab
          · exact h
        exact ih ha' (f s b)

theorem not_mem_foldl {α : Type} {x : String} {f : List String → α → List String}
    {l : List α} (hf : ∀ a ∈ l, ∀ acc, x ∉ acc → x ∉ f acc a) :
    ∀ s, x ∉ s → x ∉ l.foldl f s := by
  induction l with
  | nil => intro s h; exact h
  | cons a rest ih =>
      intro s h
      exact ih (fun b hb acc hacc => hf b (List.mem_cons_of_mem a hb) acc hacc) _
        (hf a (List.mem_cons_self a rest) s h)

/-! Monotonicity: every geo layer preserves already-accumulated countries,
except that `itmediaSecond` may discard "Italy". -/

theorem itmediaFirst_mono {x : String} (sourceL urlL : String) {s : List String}
    (h : x ∈ s) : x ∈ itmediaFirst sourceL urlL s := by
  unfold itmediaFirst
  split
  · exact mem_insertSet_of_mem _ h
  · exact h

theorem tldLayer_mono {x : String} (urlL : String) {s : List String} (h : x ∈ s) :
    x ∈ tldLayer urlL s := by
  refine mem_foldl_of_mem ?_ tldTable s h
  intro acc a ha
  dsimp only
  split
  · split
    · exact ha
    · exact mem_insertSet_of_mem _ ha
  · exact ha

theorem govLayer_mono {x : String} (sourceL urlL : String) {s : List String} (h : x ∈ s) :
    x ∈ govLayer sourceL urlL s := by
  simp only [govLayer]
  split_ifs <;> (repeat (first | exact h | apply mem_insertSet_of_mem))

theorem itmediaSecond_mono_ne {x : String} (sourceL urlL : String) {s : List String}
    (hne : x ≠ "Italy") (h : x ∈ s) : x ∈ itmediaSecond sourceL urlL s := by
  unfold itmediaSecond
  split
  · exact mem_discardSet_of_ne hne (mem_insertSet_of_mem _ h)
  · exact h

theorem vendorFold_mono {x : String} (country : String) (vendors : List String)
    (sourceL : String) {s : List String} (h : x ∈ s) :
    x ∈ vendorFold country vendors sourceL s := by
  refine mem_foldl_of_mem ?_ vendors s h
  intro acc a ha
  dsimp only
  split
  · exact mem_insertSet_of_mem _ ha
  · exact ha

theorem vendorLayer_mono {x : String} (sourceL : String) {s : List String} (h : x ∈ s) :
    x ∈ vendorLayer sourceL s := by
  unfold vendorLayer
  exact vendorFold_mono _ _ _ (vendorFold_mono _ _ _ (vendorFold_mono _ _ _
    (vendorFold_mono _ _ _ (vendorFold_mono _ _ _ h))))

theorem researchLayer_mono {x : String} (sourceL urlL : String) {s : List String}
    (h : x ∈ s) : x ∈ researchLayer sourceL urlL s := by
  simp only [researchLayer]
  split_ifs <;> (repeat (first | exact h | apply mem_insertSet_of_mem))

theorem contentLayer_mono {x : String} (content : String) {s : List String} (h : x ∈ s) :
    x ∈ contentLayer content s := by
  unfold contentLayer
  split
  · refine mem_foldl_of_mem ?_ countryPatterns s h
    intro acc a ha
    dsimp only
    split
    · exact mem_insertSet_of_mem _ ha
    · exact ha
  · exact h

theorem urlPatternLayer_mono {x : String} (urlL : String) {s : List String} (h : x ∈ s) :
    x ∈ urlPatternLayer urlL s := by
  refine mem_foldl_of_mem ?_ urlPatternTable s h
  intro acc a ha
  dsimp only
  split
  · exact mem_insertSet_of_mem _ ha
  · exact ha

/-! Substring extension: if an extended needle occurs, so does its prefix. -/

theorem startsWithL_of_append {a b : List Char} :
    ∀ {h : List Char}, startsWithL (a ++ b) h = true → startsWithL a h = true := by
  induction a with
  | nil => intro h _; rfl
  | cons c as ih =>
      intro h hw
      cases h with
      | nil => simp [startsWithL] at hw
      | cons c' hs =>
          simp only [List.cons_append, startsWithL, Bool.and_eq_true] at hw ⊢
          exact ⟨hw.1, ih hw.2⟩

theorem containsL_of_append {a b : List Char} :
    ∀ {h : List Char}, containsL (a ++ b) h = true → containsL a h = true := by
  intro h
  induction h with
  | nil =>
      intro hw
      simp only [containsL, List.isEmpty_iff, List.append_eq_nil] at hw
      simp [containsL, hw.1]
  | cons c rest ih =>
      intro hw
      simp only [containsL, Bool.or_eq_true] at hw ⊢
      rcases hw with hw | hw
      · exact Or.inl (startsWithL_of_append hw)
      · exact Or.inr (ih hw)

theorem substr_itmedia_of_cojp {u : String} (h : substr "itmedia.co.jp" u = true) :
    substr "itmedia" u = true := by
  have heq : ("itmedia.co.jp".toList : List Char) = "itmedia".toList ++ ".co.jp".toList := by
    decide
  unfold substr at h ⊢
  rw [heq] at h
  exact containsL_of_append h

/-! The TLD layer inserts the matching country, and "Italy" can only enter
through the `.it` entry. -/

theorem tldTable_italy : ∀ p ∈ tldTable, p.2 = "Italy" → p.1 = ".it" := by decide

theorem mem_tldLayer_of_table {tld country urlL : String}
    (hmem : (tld, country) ∈ tldTable) (hmatch : tldMatch tld urlL = true)
    (hskip : ¬(tld = ".it" ∧ substr "itmedia" urlL = true)) (s : List String) :
    country ∈ tldLayer urlL s := by
  unfold tldLayer
  refine mem_foldl_of_elem ?_ hmem ?_ s
  · intro acc a ha
    dsimp only
    split
    · split
      · exact ha
      · exact mem_insertSet_of_mem _ ha
    · exact ha
  · intro acc
    dsimp only
    rw [if_pos hmatch]
    have hcond : (tld == ".it" && substr "itmedia" urlL) = false := by
      by_cases hit : tld = ".it"
      · have : substr "itmedia" urlL = false := by
          rcases Bool.eq_false_or_eq_true (substr "itmedia" urlL) with h | h
          · exact absurd ⟨hit, h⟩ hskip
          · exact h
        simp [this]
      · simp [beq_eq_false_iff_ne.mpr hit]
    rw [hcond, if_neg (by simp)]
    exact mem_insertSet_self _ _

theorem tldLayer_no_italy {urlL : String} (hurl : substr "itmedia" urlL = true)
    {s : List String} (hs : "Italy" ∉ s) : "Italy" ∉ tldLayer urlL s := by
  unfold tldLayer
  refine not_mem_foldl ?_ s hs
  intro a ha acc hacc
  dsimp only
  split
  · split
    · exact hacc
    · rename_i hmatch hnskip
      intro hmem
      rcases mem_of_mem_insertSet hmem with h' | h'
      · have hit : a.1 = ".it" := tldTable_italy a ha h'.symm
        exact hnskip (by simp [hit, hurl])
      · exact hacc h'
  · exact hacc

/-! None of the other layers can introduce "Italy". -/

theorem itmediaFirst_no_italy (sourceL urlL : String) {s : List String}
    (hs : "Italy" ∉ s) : "Italy" ∉ itmediaFirst sourceL urlL s := by
  unfold itmediaFirst
  split
  · exact not_mem_insertSet (by decide) hs
  · exact hs

theorem govLayer_no_italy (sourceL urlL : String) {s : List String}
    (hs : "Italy" ∉ s) : "Italy" ∉ govLayer sourceL urlL s := by
  simp only [govLayer]
  split_ifs <;> (repeat (first | refine not_mem_insertSet (by decide) ?_ | exact hs))

theorem itmediaSecond_no_italy (sourceL urlL : String) {s : List String}
    (hs : "Italy" ∉ s) : "Italy" ∉ itmediaSecond sourceL urlL s := by
  unfold itmediaSecond
  split
  · exact not_mem_discardSet_self _ _
  · exact hs

theorem vendorFold_no_italy {country : String} (hne : "Italy" ≠ country)
    (vendors : List String) (sourceL : String) {s : List String}
    (hs : "Italy" ∉ s) : "Italy" ∉ vendorFold country vendors sourceL s := by
  unfold vendorFold
  refine not_mem_foldl ?_ s hs
  intro a _ acc hacc
  dsimp only
  split
  · exact not_mem_insertSet hne hacc
  · exact hacc

theorem vendorLayer_no_italy (sourceL : String) {s : List String}
    (hs : "Italy" ∉ s) : "Italy" ∉ vendorLayer sourceL s := by
  unfold vendorLayer
  exact vendorFold_no_italy (by decide) _ _ (vendorFold_no_italy (by decide) _ _
    (vendorFold_no_italy (by decide) _ _ (vendorFold_no_italy (by decide) _ _
      (vendorFold_no_italy (by decide) _ _ hs))))

theorem researchLayer_no_italy (sourceL urlL : String) {s : List String}
    (hs : "Italy" ∉ s) : "Italy" ∉ researchLayer sourceL urlL s := by
  simp only [researchLayer]
  split_ifs <;> (repeat (first | refine not_mem_insertSet (by decide) ?_ | exact hs))

theorem urlPatternTable_no_italy : ∀ p ∈ urlPatternTable, p.1 ≠ "Italy" := by decide

theorem urlPatternLayer_no_italy (urlL : String) {s : List String}
    (hs : "Italy" ∉ s) : "Italy" ∉ urlPatternLayer urlL s := by
  unfold urlPatternLayer
  refine not_mem_foldl ?_ s hs
  intro a ha acc hacc
  dsimp only
  split
  · exact not_mem_insertSet (fun h => urlPatternTable_no_italy a ha h.symm) hacc
  · exact hacc

/-- With empty title and description the content layer is inert: no country
pattern occurs in the empty content. -/
theorem contentPatterns_empty_content :
    ∀ p ∈ countryPatterns, (p.2.any (fun pat => countryHit pat "")) = false := by decide

theorem contentLayer_fold_id {content : String}
    (h : ∀ p ∈ countryPatterns, (p.2.any (fun pat => countryHit pat content)) = false) :
    ∀ s, countryPatterns.foldl
      (fun acc p => if p.2.any (fun pat => countryHit pat content) then insertSet p.1 acc
        else acc) s = s := by
  have aux : ∀ (l : List (String × List String)),
      (∀ p ∈ l, (p.2.any (fun pat => countryHit pat content)) = false) →
      ∀ s, l.foldl
        (fun acc p => if p.2.any (fun pat => countryHit pat content) then insertSet p.1 acc
          else acc) s = s := by
    intro l
    induction l with
    | nil => intro _ s; rfl
    | cons a rest ih =>
        intro hl s
        have ha := hl a (List.mem_cons_self a rest)
        simp only [List.foldl_cons, ha, Bool.false_eq_true, if_false]
        exact ih (fun p hp => hl p (List.mem_cons_of_mem a hp)) s
  exact aux countryPatterns h

theorem contentLayer_empty (s : List String) : contentLayer "" s = s := by
  unfold contentLayer
  split
  · exact contentLayer_fold_id contentPatterns_empty_content s
  · rfl

/-- Claim C5: `get_country_region` renders zero matches as "Global", a single
match as that country title-cased (through the multi-word exception table),
and two or more matches sorted lexicographically, comma-joined and each
title-cased; the set {"united states", "canada"} renders as
"Canada, United States". -/
theorem c5_get_country_region_shape (source_name url title description : String) :
    get_country_region source_name url title description =
      (match countriesOf source_name url title description with
        | [] => "Global"
        | [c] => capitalize_country_name c
        | cs => String.intercalate ", " ((sortStr cs).map capitalize_country_name)) ∧
    String.intercalate ", "
        ((sortStr ["united states", "canada"]).map capitalize_country_name) =
      "Canada, United States" ∧
    get_country_region "x" "" "" "" = "Global" ∧
    get_country_region "CISA" "" "" "" = "United States" ∧
    get_country_region "CISA" "https://cyber.gc.ca/en/alerts" "" "" =
      "Canada, United States" :=
  ⟨rfl, by decide, by decide, by decide, by decide⟩

/-- Claim C6 counterexample: a URL containing "itmedia" can still yield
"Italy" — the content layer attributes Italy from a title mentioning Italy
next to a context word, independently of the URL. -/
theorem c6_counterexample_itmedia_italy :
    substr "itmedia" (lowerStr "https://blog.itmedia.example/x") = true ∧
    get_country_region "x" "https://blog.itmedia.example/x" "italy cyber attack" "" =
      "Italy" :=
  ⟨by decide, by decide⟩

/-- Claim C6 (amended): a URL whose host ends in a table TLD (not embedded in
a longer label) is attributed that TLD's country, except that `.it` is
suppressed when "itmedia" occurs in the URL or source; `https://example.dk/x`
yields "Denmark"; and with no article content (empty title and description) a
URL containing "itmedia" is never attributed Italy.  Content mentions of
Italy can still add Italy regardless of the URL. -/
theorem c6_tld_attribution_amended :
    (∀ tld country source_name url title description,
        (tld, country) ∈ tldTable →
        tldMatch tld (lowerStr url) = true →
        ¬(tld = ".it" ∧ (substr "itmedia" (lowerStr source_name) = true ∨
            substr "itmedia" (lowerStr url) = true)) →
        country ∈ countriesOf source_name url title description) ∧
    get_country_region "" "https://example.dk/x" "" "" = "Denmark" ∧
    (∀ source_name url, substr "itmedia" (lowerStr url) = true →
        "Italy" ∉ countriesOf source_name url "" "") := by
  refine ⟨?_, by decide, ?_⟩
  · intro tld country sn u t d hmem hmatch hexc
    simp only [countriesOf]
    apply urlPatternLayer_mono
    apply contentLayer_mono
    apply researchLayer_mono
    apply vendorLayer_mono
    by_cases hcountry : country = "Italy"
    · subst hcountry
      have hit : tld = ".it" := tldTable_italy (tld, "Italy") hmem rfl
      have hno : ¬(substr "itmedia" (lowerStr sn) = true ∨
          substr "itmedia" (lowerStr u) = true) := fun h => hexc ⟨hit, h⟩
      have h1 : substr "itmedia" (lowerStr sn) = false := by
        cases hx : substr "itmedia" (lowerStr sn)
        · rfl
        · exact absurd (Or.inl hx) hno
      have h2 : substr "itmedia" (lowerStr u) = false := by
        cases hx : substr "itmedia" (lowerStr u)
        · rfl
        · exact absurd (Or.inr hx) hno
      have h3 : substr "itmedia.co.jp" (lowerStr u) = false := by
        cases hx : substr "itmedia.co.jp" (lowerStr u)
        · rfl
        · exact absurd (Or.inr (substr_itmedia_of_cojp hx)) hno
      unfold itmediaSecond
      rw [h1, h3]
      rw [if_neg (by simp)]
      apply govLayer_mono
      exact mem_tldLayer_of_table hmem hmatch
        (fun hc => by rw [h2] at hc; exact Bool.false_ne_true hc.2) _
    · apply itmediaSecond_mono_ne _ _ hcountry
      apply govLayer_mono
      exact mem_tldLayer_of_table hmem hmatch
        (fun hc => hexc ⟨hc.1, Or.inr hc.2⟩) _
  · intro sn u hurl
    simp only [countriesOf]
    have hc : stripStr (lowerStr "" ++ " " ++ lowerStr "") = "" := rfl
    rw [hc, contentLayer_empty]
    apply urlPatternLayer_no_italy
    apply researchLayer_no_italy
    apply vendorLayer_no_italy
    apply itmediaSecond_no_italy
    apply govLayer_no_italy
    apply tldLayer_no_italy hurl
    apply itmediaFirst_no_italy
    exact List.not_mem_nil _

/-- Witness for the amended C6 theorem at concrete inputs. -/
theorem c6_tld_attribution_amended_witness :
    "Denmark" ∈ countriesOf "" "https://example.dk/x" "" "" ∧
    "Italy" ∉ countriesOf "ITmedia Security" "https://www.itmedia.co.jp/x" "" "" :=
  ⟨c6_tld_attribution_amended.1 ".dk" "Denmark" "" "https://example.dk/x" "" ""
      (by decide) (by decide) (by decide),
    c6_tld_attribution_amended.2.2 "ITmedia Security" "https://www.itmedia.co.jp/x"
      (by decide)⟩

/-! ## Storage model: Article records and the ingestion pipeline
(`fetch_all_feeds_internal`, app.py 1036-1153)

Timestamps are UTC instants modelled as `Int` seconds; `timedelta(days=d)`
is `d * 86400` and `timedelta(hours=h)` is `h * 3600`. -/

structure ArticleR where
  title : String
  link : String
  description : String
  source : String
  publisher_type : String
  content_type : String
  country_region : String
  published : Int
  fetched : Int
deriving DecidableEq

/-- Dedup loop of app.py 1110-1114: walk the fetched batch in order, keep an
article only when its link has not been seen (`existing_links` starts as the
stored links restricted to the batch and grows with each kept article). -/
def dedupLoop : List ArticleR → List ArticleR → List String → List ArticleR × List String
  | [], news, seen => (news, seen)
  | a :: rest, news, seen =>
      if a.link ∈ seen then dedupLoop rest news seen
      else dedupLoop rest (news ++ [a]) (seen ++ [a.link])

/-- Dedup-and-insert phase of app.py 1101-1119: query the stored links among
the batch links, keep only first occurrences of unseen links, batch-append.
Returns (new storage, inserted articles). -/
def ingest (storage fetched : List ArticleR) : List ArticleR × List ArticleR :=
  let batchLinks := fetched.map ArticleR.link
  let existing_links := (storage.map ArticleR.link).filter (fun l => decide (l ∈ batchLinks))
  let news := (dedupLoop fetched [] existing_links).1
  (storage ++ news, news)

theorem dedupLoop_spec (l : List ArticleR) :
    ∀ (news : List ArticleR) (seen : List String),
    (∀ a ∈ news, a.link ∈ seen) → ((news.map ArticleR.link).Nodup) →
    (∀ a ∈ (dedupLoop l news seen).1, a.link ∈ (dedupLoop l news seen).2) ∧
      ((dedupLoop l news seen).1.map ArticleR.link).Nodup ∧
      (∀ a ∈ (dedupLoop l news seen).1, a ∈ news ∨ (a ∈ l ∧ a.link ∉ seen)) ∧
      (∀ a ∈ l, a.link ∈ (dedupLoop l news seen).2) ∧
      (∀ lnk ∈ (dedupLoop l news seen).2,
        lnk ∈ seen ∨ lnk ∈ (dedupLoop l news seen).1.map ArticleR.link) ∧
      (∀ a ∈ news, a ∈ (dedupLoop l news seen).1) ∧
      (∀ lnk ∈ seen, lnk ∈ (dedupLoop l news seen).2) := by
  induction l with
  | nil =>
      intro news seen h1 h2
      refine ⟨h1, h2, ?_, ?_, ?_, ?_, ?_⟩
      · intro a ha; exact Or.inl ha
      · intro a ha; cases ha
      · intro lnk hl; exact Or.inl hl
      · intro a ha; exact ha
      · intro lnk hl; exact hl
  | cons b rest ih =>
      intro news seen h1 h2
      by_cases hb : b.link ∈ seen
      · have hloop : dedupLoop (b :: rest) news seen = dedupLoop rest news seen := by
          show (if b.link ∈ seen then dedupLoop rest news seen
            else dedupLoop rest (news ++ [b]) (seen ++ [b.link])) = dedupLoop rest news seen
          rw [if_pos hb]
        obtain ⟨g1, g2, g3, g4, g5, g6, g7⟩ := ih news seen h1 h2
        rw [hloop]
        refine ⟨g1, g2, ?_, ?_, g5, g6, g7⟩
        · intro a ha
          rcases g3 a ha with h | h
          · exact Or.inl h
          · exact Or.inr ⟨List.mem_cons_of_mem b h.1, h.2⟩
        · intro a ha
          rcases List.mem_cons.mp ha with h | h
          · subst h; exact g7 _ hb
          · exact g4 a h
      · have hloop : dedupLoop (b :: rest) news seen =
            dedupLoop rest (news ++ [b]) (seen ++ [b.link]) := by
          show (if b.link ∈ seen then dedupLoop rest news seen
              else dedupLoop rest (news ++ [b]) (seen ++ [b.link])) =
            dedupLoop rest (news ++ [b]) (seen ++ [b.link])
          rw [if_neg hb]
        have h1' : ∀ a ∈ news ++ [b], a.link ∈ seen ++ [b.link] := by
          intro a ha
          rcases List.mem_append.mp ha with h | h
          · exact List.mem_append_left _ (h1 a h)
          · rw [List.mem_singleton.mp h]
            exact List.mem_append_right _ (List.mem_singleton_self _)
        have hbl : b.link ∉ news.map ArticleR.link := by
          intro hmem
          rcases List.mem_map.mp hmem with ⟨a, ha, hla⟩
          exact hb (hla ▸ h1 a ha)
        have h2' : ((news ++ [b]).map ArticleR.link).Nodup := by
          rw [List.map_append]
          refine List.Nodup.append h2 (List.nodup_singleton _) ?_
          intro x hx hx'
          rw [List.mem_singleton.mp hx'] at hx
          exact hbl hx
        obtain ⟨g1, g2, g3, g4, g5, g6, g7⟩ := ih (news ++ [b]) (seen ++ [b.link]) h1' h2'
        rw [hloop]
        refine ⟨g1, g2, ?_, ?_, ?_, ?_, ?_⟩
        · intro a ha
          rcases g3 a ha with h | h
          · rcases List.mem_append.mp h with h' | h'
            · exact Or.inl h'
            · rw [List.mem_singleton.mp h']
              exact Or.inr ⟨List.mem_cons_self _ _, hb⟩
          · refine Or.inr ⟨List.mem_cons_of_mem b h.1, fun hc => h.2 ?_⟩
            exact List.mem_append_left _ hc
        · intro a ha
          rcases List.mem_cons.mp ha with h | h
          · subst h
            exact g7 _ (List.mem_append_right _ (List.mem_singleton_self _))
          · exact g4 a h
        · intro lnk hl
          rcases g5 lnk hl with h | h
          · rcases List.mem_append.mp h with h' | h'
            · exact Or.inl h'
            · rw [List.mem_singleton.mp h']
              refine Or.inr (List.mem_map.mpr ⟨b, ?_, rfl⟩)
              exact g6 b (List.mem_append_right _ (List.mem_singleton_self _))
          · exact Or.inr h
        · intro a ha
          exact g6 a (List.mem_append_left _ ha)
        · intro lnk hl
          exact g7 lnk (List.mem_append_left _ hl)

/-- Claim C1: a fetched entry whose link is already stored, or duplicates an
earlier entry of the same batch, is discarded; insertion is append-only
(first-write-wins, no overwrite), inserted links are fresh and pairwise
distinct, link-uniqueness of storage is preserved, and every fresh link of
the batch does get stored. -/
theorem c1_ingest_dedup (storage fetched : List ArticleR) :
    (ingest storage fetched).1 = storage ++ (ingest storage fetched).2 ∧
    (∀ a ∈ (ingest storage fetched).2, a.link ∉ storage.map ArticleR.link) ∧
    ((ingest storage fetched).2.map ArticleR.link).Nodup ∧
    ((storage.map ArticleR.link).Nodup →
      ((ingest storage fetched).1.map ArticleR.link).Nodup) ∧
    (∀ a ∈ fetched, a.link ∉ storage.map ArticleR.link →
      a.link ∈ (ingest storage fetched).2.map ArticleR.link) := by
  obtain ⟨g1, g2, g3, g4, g5, g6, g7⟩ := dedupLoop_spec fetched []
    ((storage.map ArticleR.link).filter
      (fun l => decide (l ∈ fetched.map ArticleR.link)))
    (by intro a ha; cases ha) (by simp)
  have hfst : (ingest storage fetched).1 = storage ++
      (dedupLoop fetched []
        ((storage.map ArticleR.link).filter
          (fun l => decide (l ∈ fetched.map ArticleR.link)))).1 := rfl
  have hsnd : (ingest storage fetched).2 =
      (dedupLoop fetched []
        ((storage.map ArticleR.link).filter
          (fun l => decide (l ∈ fetched.map ArticleR.link)))).1 := rfl
  have hfresh : ∀ a ∈ (ingest storage fetched).2, a.link ∉ storage.map ArticleR.link := by
    intro a ha hmem
    rw [hsnd] at ha
    rcases g3 a ha with h | h
    · cases h
    · refine h.2 (List.mem_filter.mpr ⟨hmem, decide_eq_true ?_⟩)
      exact List.mem_map.mpr ⟨a, h.1, rfl⟩
  refine ⟨hfst, hfresh, ?_, ?_, ?_⟩
  · rw [hsnd]; exact g2
  · intro hnd
    rw [hfst, List.map_append]
    refine List.Nodup.append hnd (hsnd ▸ g2) ?_
    intro x hx hx'
    rcases List.mem_map.mp hx' with ⟨a, ha, hla⟩
    exact hfresh a (hsnd ▸ ha) (hla ▸ hx)
  · intro a ha hmem
    rw [hsnd]
    rcases g5 a.link (g4 a ha) with h | h
    · exact absurd (List.mem_filter.mp h).1 hmem
    · exact h

def artA : ArticleR := ⟨"t1", "l1", "d", "s", "Industry", "News", "Global", 0, 0⟩

def artA2 : ArticleR := ⟨"t1-refetch", "l1", "d2", "s", "Industry", "Alert", "Global", 5, 5⟩

def artB : ArticleR := ⟨"t2", "l2", "d", "s", "Industry", "News", "Global", 0, 0⟩

/-- Witness for C1 at a concrete batch: re-fetching stored link "l1" leaves
storage unique, and the fresh link "l2" is inserted. -/
theorem c1_ingest_dedup_witness :
    ((ingest [artA] [artA2, artB]).1.map ArticleR.link).Nodup ∧
    artB.link ∈ ((ingest [artA] [artA2, artB]).2.map ArticleR.link) :=
  ⟨(c1_ingest_dedup [artA] [artA2, artB]).2.2.2.1 (by decide),
    (c1_ingest_dedup [artA] [artA2, artB]).2.2.2.2 artB (by decide) (by decide)⟩

/-! ## Retention cleanup (app.py 1121-1126 and `/api/cleanup`, 1510-1523) -/

/-- Retention cleanup shared by `fetch_all_feeds_internal` and the
`POST /api/cleanup` endpoint: delete the articles strictly older than
`now - retention_days` (both call sites default `retention_days` to 90);
returns (remaining storage, deleted count). -/
def retentionCleanup (retention_days now : Int) (storage : List ArticleR) :
    List ArticleR × Nat :=
  let cutoff := now - retention_days * 86400
  (storage.filter (fun a => decide (¬(a.published < cutoff))),
    (storage.filter (fun a => decide (a.published < cutoff))).length)

/-- Claim C7: retention cleanup keeps exactly the articles published at or
after `now - retention_days`, and the deleted count is the number of
strictly older ones — no newer-or-equal article is deleted. -/
theorem c7_retention_cutoff (retention_days now : Int) (storage : List ArticleR)
    (a : ArticleR) :
    (a ∈ (retentionCleanup retention_days now storage).1 ↔
      a ∈ storage ∧ now - retention_days * 86400 ≤ a.published) ∧
    (retentionCleanup retention_days now storage).2 =
      (storage.filter
        (fun x => decide (x.published < now - retention_days * 86400))).length := by
  refine ⟨⟨?_, ?_⟩, rfl⟩
  · intro h
    have h' := List.mem_filter.mp h
    have := of_decide_eq_true h'.2
    exact ⟨h'.1, by omega⟩
  · rintro ⟨h1, h2⟩
    exact List.mem_filter.mpr ⟨h1, decide_eq_true (by omega)⟩

/-! ## Per-feed outcome and aggregation
(`fetch_single_feed` and the as-completed loop, app.py 1053-1095) -/

structure FeedOutcome where
  success : Bool
  feed : String
  articles : List ArticleR
  count : Nat
  error : Option String
  url : String
deriving DecidableEq

/-- The `only_recent` filter of app.py 1059-1063: keep articles published in
the last 24 hours. -/
def recentFilter (only_recent : Bool) (now : Int) (arts : List ArticleR) : List ArticleR :=
  if only_recent then arts.filter (fun a => decide (now - 24 * 3600 ≤ a.published))
  else arts

/-- `fetch_single_feed(feed_config)` (app.py 1053-1072), given the result of
`fetch_rss_feed` as `fetched`.  An empty (possibly filtered) article list is
a failure whose error falls back to the string "No articles" (the Python
`error_message if error_message else 'No articles'` treats an empty string
as absent too). -/
def fetch_single_feed (name url : String) (fetched : List ArticleR × Option String)
    (only_recent : Bool) (now : Int) : FeedOutcome :=
  let arts := recentFilter only_recent now fetched.1
  if arts = [] then
    ⟨false, name, [], 0,
      some (match fetched.2 with
        | some e => if e = "" then "No articles" else e
        | none => "No articles"), url⟩
  else ⟨true, name, arts, arts.length, none, url⟩

structure FailDetail where
  name : String
  url : String
  error : String
deriving DecidableEq

/-- Failure record appended to `failed_feed_details` (app.py 1091-1095). -/
def mkDetail (r : FeedOutcome) : FailDetail := ⟨r.feed, r.url, r.error.getD "No articles"⟩

structure AggState where
  all_articles : List ArticleR
  successful : Nat
  failed : Nat
  details : List FailDetail
deriving DecidableEq

/-- One iteration of the as-completed aggregation loop (app.py 1081-1095). -/
def aggStep (s : AggState) (r : FeedOutcome) : AggState :=
  if r.success then
    { s with all_articles := s.all_articles ++ r.articles, successful := s.successful + 1 }
  else { s with failed := s.failed + 1, details := s.details ++ [mkDetail r] }

/-- Aggregation over all completed feed fetches. -/
def aggregate (results : List FeedOutcome) : AggState := results.foldl aggStep ⟨[], 0, 0, []⟩

theorem aggStep_details_mono {d : FailDetail} (s : AggState) (r : FeedOutcome)
    (h : d ∈ s.details) : d ∈ (aggStep s r).details := by
  unfold aggStep
  split
  · exact h
  · exact List.mem_append_left _ h

theorem agg_foldl_details_mono {d : FailDetail} :
    ∀ (l : List FeedOutcome) (s : AggState), d ∈ s.details → d ∈ (l.foldl aggStep s).details := by
  intro l
  induction l with
  | nil => intro s h; exact h
  | cons r rest ih => intro s h; exact ih _ (aggStep_details_mono s r h)

theorem aggStep_failed_mono (s : AggState) (r : FeedOutcome) :
    s.failed ≤ (aggStep s r).failed := by
  unfold aggStep
  split
  · exact le_refl _
  · exact Nat.le_succ _

theorem agg_foldl_failed_mono :
    ∀ (l : List FeedOutcome) (s : AggState), s.failed ≤ (l.foldl aggStep s).failed := by
  intro l
  induction l with
  | nil => intro s; exact le_refl _
  | cons r rest ih => intro s; exact le_trans (aggStep_failed_mono s r) (ih _)

theorem agg_detail_of_failed {r : FeedOutcome} (hr : r.success = false) :
    ∀ (l : List FeedOutcome) (s : AggState), r ∈ l →
      mkDetail r ∈ (l.foldl aggStep s).details := by
  intro l
  induction l with
  | nil => intro s h; cases h
  | cons b rest ih =>
      intro s h
      by_cases hrb : r = b
      · subst hrb
        refine agg_foldl_details_mono rest _ ?_
        unfold aggStep
        rw [hr]
        simp
      · have : r ∈ rest := by
          rcases List.mem_cons.mp h with h' | h'
          · exact absurd h' hrb
          · exact h'
        exact ih _ this

theorem agg_failed_of_failed {r : FeedOutcome} (hr : r.success = false) :
    ∀ (l : List FeedOutcome) (s : AggState), r ∈ l → 0 < (l.foldl aggStep s).failed := by
  intro l
  induction l with
  | nil => intro s h; cases h
  | cons b rest ih =>
      intro s h
      by_cases hrb : r = b
      · subst hrb
        refine lt_of_lt_of_le ?_ (agg_foldl_failed_mono rest _)
        unfold aggStep
        rw [hr]
        simp
      · have : r ∈ rest := by
          rcases List.mem_cons.mp h with h' | h'
          · exact absurd h' hrb
          · exact h'
        exact ih _ this

/-- Claim C9: a feed whose fetch returns no error but zero (possibly
onlyRecent-filtered) articles is tallied as a failed feed with error
"No articles": the outcome is a failure, and aggregation counts it in
`failed_feeds` and records it in `failed_feed_details`. -/
theorem c9_zero_articles_is_failure (name url : String) (arts : List ArticleR)
    (only_recent : Bool) (now : Int)
    (h : recentFilter only_recent now arts = []) :
    (fetch_single_feed name url (arts, none) only_recent now).success = false ∧
    (fetch_single_feed name url (arts, none) only_recent now).error = some "No articles" ∧
    mkDetail (fetch_single_feed name url (arts, none) only_recent now) =
      ⟨name, url, "No articles"⟩ ∧
    (∀ results : List FeedOutcome,
      fetch_single_feed name url (arts, none) only_recent now ∈ results →
        mkDetail (fetch_single_feed name url (arts, none) only_recent now) ∈
            (aggregate results).details ∧
          0 < (aggregate results).failed) := by
  have hout : fetch_single_feed name url (arts, none) only_recent now =
      ⟨false, name, [], 0, some "No articles", url⟩ := by
    simp [fetch_single_feed, h]
  refine ⟨by rw [hout], by rw [hout], by rw [hout]; rfl, ?_⟩
  intro results hmem
  have hfail : (fetch_single_feed name url (arts, none) only_recent now).success = false := by
    rw [hout]
  exact ⟨agg_detail_of_failed hfail results _ hmem, agg_failed_of_failed hfail results _ hmem⟩

/-- Witness for C9: a fetch that returned `([], none)` (as a 304 or a
content-hash match does) is reported as the failure "No articles". -/
theorem c9_zero_articles_is_failure_witness :
    (fetch_single_feed "CISA" "https://www.cisa.gov/news.xml"
        (([] : List ArticleR), none) false 0).error = some "No articles" :=
  (c9_zero_articles_is_failure "CISA" "https://www.cisa.gov/news.xml" [] false 0 rfl).2.1

/-! ## The whole ingestion run (`fetch_all_feeds_internal`, app.py 1097-1145) -/

structure FetchReport where
  status : String
  total_fetched : Nat
  new_articles : Nat
  successful_feeds : Nat
  failed_feeds : Nat
  failed_feed_details : List FailDetail
  old_articles_deleted : Nat
  retention_days : Int
deriving DecidableEq

/-- The storage-mutating tail of `fetch_all_feeds_internal` given the
aggregated per-feed results: dedup-insert the batch, run retention cleanup,
and build the success report (app.py 1097-1145). -/
def runFetchModel (storage : List ArticleR) (results : List FeedOutcome)
    (retention_days now : Int) : List ArticleR × FetchReport :=
  let agg := aggregate results
  let ins := ingest storage agg.all_articles
  let cleaned := retentionCleanup retention_days now ins.1
  (cleaned.1,
    ⟨"success", agg.all_articles.length, ins.2.length, agg.successful, agg.failed,
      agg.details.take 20, cleaned.2, retention_days⟩)

theorem ingest_nil (storage : List ArticleR) : ingest storage [] = (storage, []) := by
  simp [ingest, dedupLoop]

theorem filter_replicate_true {α : Type} (p : α → Bool) (a : α) (h : p a = true) :
    ∀ n : Nat, (List.replicate n a).filter p = List.replicate n a := by
  intro n
  induction n with
  | zero => rfl
  | succ n ih => simp [List.replicate_succ, List.filter_cons, h, ih]

def capacityArticle : ArticleR := ⟨"t", "l", "d", "s", "Industry", "News", "Global", 0, 0⟩

theorem runFetch_replicate_length (n : Nat) :
    ((runFetchModel (List.replicate n capacityArticle) [] 90 0).1).length = n := by
  have h1 : (runFetchModel (List.replicate n capacityArticle) [] 90 0).1 =
      (retentionCleanup 90 0
        (ingest (List.replicate n capacityArticle) (aggregate []).all_articles).1).1 := rfl
  have h2 : (aggregate []).all_articles = ([] : List ArticleR) := rfl
  rw [h1, h2, ingest_nil]
  show ((List.replicate n capacityArticle).filter _).length = n
  rw [filter_replicate_true _ _ (by decide), List.length_replicate]

/-- Claim C8 counterexample: a run over a store of 5001 recent articles (and
no fetched results) deletes nothing — no capacity cap at 5000 is enforced
and the report's only purge count, `old_articles_deleted`, is 0. -/
theorem replicate_capacity_filter_old (n : Nat) :
    (List.replicate n capacityArticle).filter
      (fun a => decide (a.published < 0 - 90 * 86400)) = [] := by
  induction n with
  | zero => rfl
  | succ m ih =>
      rw [List.replicate_succ, List.filter_cons, if_neg (by decide)]
      exact ih

theorem runFetch_replicate_deleted (n : Nat) :
    (runFetchModel (List.replicate n capacityArticle) [] 90 0).2.old_articles_deleted
      = 0 := by
  have h1 : (runFetchModel (List.replicate n capacityArticle) [] 90
        0).2.old_articles_deleted =
      (retentionCleanup 90 0
        (ingest (List.replicate n capacityArticle)
          (aggregate []).all_articles).1).2 := rfl
  have h2 : (aggregate []).all_articles = ([] : List ArticleR) := rfl
  rw [h1, h2, ingest_nil]
  show ((List.replicate n capacityArticle).filter _).length = 0
  rw [replicate_capacity_filter_old n]
  rfl

theorem c8_counterexample_no_capacity_cap :
    5000 < ((runFetchModel (List.replicate 5001 capacityArticle) [] 90 0).1).length ∧
    (runFetchModel (List.replicate 5001 capacityArticle) [] 90 0).2.old_articles_deleted
      = 0 := by
  constructor
  · rw [runFetch_replicate_length 5001]
    decide
  · exact runFetch_replicate_deleted 5001

/-- Claim C8 (amended): an ingestion run enforces no storage capacity cap —
a store of any size n is left intact when all articles are recent — and the
FetchReport carries only the retention purge count (`old_articles_deleted`);
there is no capacity-purge count and the final storage is exactly the
retention-filtered dedup-insert result. -/
theorem c8_no_capacity_cap_amended :
    (∀ n : Nat, ((runFetchModel (List.replicate n capacityArticle) [] 90 0).1).length = n) ∧
    (∀ (storage : List ArticleR) (results : List FeedOutcome) (retention_days now : Int),
      (runFetchModel storage results retention_days now).2.old_articles_deleted =
        (retentionCleanup retention_days now
          (ingest storage (aggregate results).all_articles).1).2 ∧
      (runFetchModel storage results retention_days now).1 =
        (retentionCleanup retention_days now
          (ingest storage (aggregate results).all_articles).1).1) :=
  ⟨runFetch_replicate_length, fun _ _ _ _ => ⟨rfl, rfl⟩⟩

/-! ## FeedFetcher control flow (`fetch_rss_feed`, app.py 793-1008)

The HTTP response and the parsed feed are explicit inputs; `hashFn` stands
for SHA-256 over the raw body and `extract` for the per-entry extraction
loop (app.py 962-1001), neither of which the claims below depend on. -/

structure FeedCacheE where
  etag : Option String
  last_modified : Option String
  content_hash : Option String
deriving DecidableEq

structure FetchResp where
  statusCode : Nat
  reason : String
  body : List Nat
deriving DecidableEq

/-- The cached content hash looked up for the feed URL (absent cache row or
absent hash both behave as no hash). -/
def cachedHash (cache : Option FeedCacheE) : Option String :=
  match cache with
  | some c => c.content_hash
  | none => none

/-- The secondary cache validator of app.py 868-883:
`if cache_content_hash and cache_content_hash == content_hash` — an empty
stored hash is falsy in Python and never hits. -/
def hashHitB (cache : Option FeedCacheE) (h : String) : Bool :=
  match cachedHash cache with
  | some ch => !(ch == "") && ch == h
  | none => false

/-- `fetch_rss_feed` result: 304 and hash-match return empty with no error;
non-200 returns an error; a bozo feed without entries is a parse error, an
entry-less feed is "No entries in feed", and otherwise the extracted
articles are returned with no error. -/
def fetchRss {α : Type} (hashFn : List Nat → String) (extract : List α → List ArticleR)
    (cache : Option FeedCacheE) (resp : FetchResp) (bozo bozoExc : Bool)
    (bozoMsg : String) (entries : List α) : List ArticleR × Option String :=
  if resp.statusCode = 304 then ([], none)
  else if resp.statusCode ≠ 200 then
    ([], some ("HTTP " ++ toString resp.statusCode ++ ": " ++ resp.reason))
  else if hashHitB cache (hashFn resp.body) then ([], none)
  else if bozo && bozoExc then
    (if entries.isEmpty then ([], some ("Parse error: " ++ bozoMsg))
      else (extract entries, none))
  else if entries.isEmpty then ([], some "No entries in feed")
  else (extract entries, none)

/-- Claim C3: a 304 response yields an empty article list and no error, and
a 200 response whose body hash equals the (non-empty) cached content hash
also yields an empty list and no error. -/
theorem c3_not_modified_no_error :
    (∀ (α : Type) (hashFn : List Nat → String) (extract : List α → List ArticleR)
        (cache : Option FeedCacheE) (resp : FetchResp) (bozo bozoExc : Bool)
        (bozoMsg : String) (entries : List α),
      resp.statusCode = 304 →
        fetchRss hashFn extract cache resp bozo bozoExc bozoMsg entries = ([], none)) ∧
    (∀ (α : Type) (hashFn : List Nat → String) (extract : List α → List ArticleR)
        (c : FeedCacheE) (resp : FetchResp) (bozo bozoExc : Bool)
        (bozoMsg : String) (entries : List α),
      resp.statusCode = 200 →
        c.content_hash = some (hashFn resp.body) →
        hashFn resp.body ≠ "" →
        fetchRss hashFn extract (some c) resp bozo bozoExc bozoMsg entries = ([], none)) := by
  constructor
  · intro α hashFn extract cache resp bozo bozoExc bozoMsg entries h304
    unfold fetchRss
    rw [if_pos h304]
  · intro α hashFn extract c resp bozo bozoExc bozoMsg entries h200 hch hne
    have hhit : hashHitB (some c) (hashFn resp.body) = true := by
      simp only [hashHitB, cachedHash, hch]
      simp [beq_eq_false_iff_ne.mpr hne]
    unfold fetchRss
    rw [if_neg (by rw [h200]; decide), if_neg (fun hx => hx h200), if_pos hhit]

/-- Witness for C3 at concrete responses: a 304, and a 200 whose body hash
"h" matches the cached hash (despite an entry-less parse, no error). -/
theorem c3_not_modified_no_error_witness :
    fetchRss (fun _ => "h") (fun _ => []) none ⟨304, "Not Modified", []⟩ false false ""
        ([] : List Unit) = ([], none) ∧
    fetchRss (fun _ => "h") (fun _ => []) (some ⟨none, none, some "h"⟩)
        ⟨200, "OK", []⟩ false false "" ([] : List Unit) = ([], none) :=
  ⟨c3_not_modified_no_error.1 Unit (fun _ => "h") (fun _ => []) none
      ⟨304, "Not Modified", []⟩ false false "" [] rfl,
    c3_not_modified_no_error.2 Unit (fun _ => "h") (fun _ => [])
      ⟨none, none, some "h"⟩ ⟨200, "OK", []⟩ false false "" [] rfl rfl (by decide)⟩

/-! ## Read API queries (`get_articles` app.py 1178-1258, `get_stats` 1365-1508) -/

structure QueryParams where
  category : Option String
  publisher_type : Option String
  source : Option String
  search : Option String
  days : Option Int
  countries : Option String
deriving DecidableEq

/-- SQL `LIKE '%term%'` (SQLite LIKE is ASCII case-insensitive). -/
def likeMatch (term field : String) : Bool := substr (lowerStr term) (lowerStr field)

/-- `[c.strip() for c in countries.split(',') if c.strip()]`. -/
def splitCountries (countries : String) : List String :=
  ((countries.splitOn ",").map (fun c => stripStr c)).filter (fun c => !(c == ""))

/-- Country filter: exact match or the country inside the comma-joined
`country_region` value. -/
def countryFilterMatch (cl : List String) (a : ArticleR) : Bool :=
  cl.any (fun c => a.country_region == c || substr c a.country_region)

/-- The shared optional filters of `get_articles` and `get_stats`
(Python truthiness: an empty string or zero `days` applies no filter). -/
def applyFilters (p : QueryParams) (now : Int) (q : List ArticleR) : List ArticleR :=
  let q1 := match p.category with
    | some c => if c = "" then q else q.filter (fun a => a.content_type == c)
    | none => q
  let q2 := match p.publisher_type with
    | some pt => if pt = "" then q1 else q1.filter (fun a => a.publisher_type == pt)
    | none => q1
  let q3 := match p.source with
    | some s => if s = "" then q2 else q2.filter (fun a => a.source == s)
    | none => q2
  let q4 := match p.search with
    | some s => if s = "" then q3
        else q3.filter (fun a => likeMatch s a.title || likeMatch s a.description)
    | none => q3
  let q5 := match p.days with
    | some d => if d = 0 then q4
        else q4.filter (fun a => decide (now - d * 86400 ≤ a.published))
    | none => q4
  match p.countries with
  | some cstr =>
      if cstr = "" then q5
      else if splitCountries cstr = [] then q5
      else q5.filter (fun a => countryFilterMatch (splitCountries cstr) a)
  | none => q5

/-- Comparator of the ORDER BY clauses (app.py 1236-1246): `oldest` sorts
published ascending then fetched ascending; `newest` and `relevance` sort
published descending then fetched descending. -/
def sortedBefore (sort_by : String) (a b : ArticleR) : Bool :=
  if sort_by = "oldest" then
    decide (a.published < b.published) ||
      (decide (a.published = b.published) && decide (a.fetched ≤ b.fetched))
  else
    decide (b.published < a.published) ||
      (decide (a.published = b.published) && decide (b.fetched ≤ a.fetched))

def insertArt (le : ArticleR → ArticleR → Bool) (x : ArticleR) :
    List ArticleR → List ArticleR
  | [] => [x]
  | y :: ys => if le x y then x :: y :: ys else y :: insertArt le x ys

def sortArts (le : ArticleR → ArticleR → Bool) (l : List ArticleR) : List ArticleR :=
  l.foldr (insertArt le) []

/-- `GET /api/articles`: filters, the 24-hour future-date cutoff
(app.py 1230-1234), sorting, pagination. -/
def get_articles_model (p : QueryParams) (sort_by : String) (page per_page : Nat)
    (now : Int) (storage : List ArticleR) : List ArticleR :=
  let q := applyFilters p now storage
  let q2 := q.filter (fun a => decide (a.published ≤ now + 24 * 3600))
  let q3 := sortArts (sortedBefore sort_by) q2
  (q3.drop ((page - 1) * per_page)).take per_page

/-- `GET /api/stats` total count: same filters but a 1-hour future-date
cutoff (app.py 1414-1420). -/
def get_stats_total (p : QueryParams) (now : Int) (storage : List ArticleR) : Nat :=
  ((applyFilters p now storage).filter (fun a => decide (a.published ≤ now + 3600))).length

theorem mem_of_insertArt {le : ArticleR → ArticleR → Bool} {x a : ArticleR} :
    ∀ {l : List ArticleR}, a ∈ insertArt le x l → a = x ∨ a ∈ l := by
  intro l
  induction l with
  | nil =>
      intro h
      exact Or.inl (List.mem_singleton.mp h)
  | cons y ys ih =>
      intro h
      unfold insertArt at h
      split at h
      · rcases List.mem_cons.mp h with h' | h'
        · exact Or.inl h'
        · exact Or.inr h'
      · rcases List.mem_cons.mp h with h' | h'
        · exact Or.inr (h' ▸ List.mem_cons_self _ _)
        · rcases ih h' with h'' | h''
          · exact Or.inl h''
          · exact Or.inr (List.mem_cons_of_mem _ h'')

theorem mem_of_sortArts {le : ArticleR → ArticleR → Bool} {a : ArticleR} :
    ∀ {l : List ArticleR}, a ∈ sortArts le l → a ∈ l := by
  intro l
  induction l with
  | nil => intro h; cases h
  | cons x xs ih =>
      intro h
      rcases mem_of_insertArt (l := sortArts le xs) h with h' | h'
      · exact h' ▸ List.mem_cons_self _ _
      · exact List.mem_cons_of_mem _ (ih h')

def futureArt : ArticleR := ⟨"t", "l", "d", "s", "Industry", "News", "Global", 7200, 0⟩

def noFilters : QueryParams := ⟨none, none, none, none, none, none⟩

/-- Claim C10: `GET /api/articles` never returns an article published more
than 24 hours after the query time; `GET /api/stats` counts only articles
published at most 1 hour after the query time; on the same stored data (an
article 2 hours in the future) the two endpoints disagree. -/
theorem c10_future_date_cutoffs :
    (∀ (p : QueryParams) (sort_by : String) (page per_page : Nat) (now : Int)
        (storage : List ArticleR) (a : ArticleR),
      a ∈ get_articles_model p sort_by page per_page now storage →
        a.published ≤ now + 24 * 3600) ∧
    (∀ (p : QueryParams) (now : Int) (storage : List ArticleR),
      get_stats_total p now storage =
        ((applyFilters p now storage).filter
          (fun a => decide (a.published ≤ now + 3600))).length) ∧
    get_articles_model noFilters "newest" 1 50 0 [futureArt] = [futureArt] ∧
    get_stats_total noFilters 0 [futureArt] = 0 := by
  refine ⟨?_, fun _ _ _ => rfl, by decide, by decide⟩
  intro p sort_by page per_page now storage a ha
  have h1 : a ∈ sortArts (sortedBefore sort_by)
      ((applyFilters p now storage).filter
        (fun a => decide (a.published ≤ now + 24 * 3600))) :=
    List.drop_subset _ _ (List.take_subset _ _ ha)
  have h2 := mem_of_sortArts h1
  exact of_decide_eq_true (List.mem_filter.mp h2).2

/-- Witness for C10: the theorem applied to the concrete future-dated
article returned by the articles endpoint. -/
theorem c10_future_date_cutoffs_witness : futureArt.published ≤ 0 + 24 * 3600 :=
  c10_future_date_cutoffs.1 noFilters "newest" 1 50 0 [futureArt] futureArt (by decide)

/-! ## ContentClassifier strategy modules
(`groq_categorizer.py` and `ml_categorizer.py`) -/

/-- Response normalization of `categorize_with_groq`
(groq_categorizer.py 86-99). -/
def groqNormalize (raw : String) : String :=
  let cl := lowerStr (stripStr raw)
  if substr "news" cl then "News"
  else if substr "alert" cl then "Alert"
  else if substr "research" cl then "Research"
  else if substr "event" cl then "Event"
  else "News"

/-- `categorize_with_groq(title, description)` (groq_categorizer.py 38-110),
with the HTTP exchange modelled by its `(status, content)` outcome (`none`
for a raised exception).  Unconfigured key or any failure yields `(None, 0)`;
success always reports confidence 0.9. -/
def categorize_with_groq (apiKey : String) (resp : Option (Nat × String)) :
    Option String × ℚ :=
  if apiKey = "" then (none, 0)
  else match resp with
    | some (code, content) =>
        if code = 200 then (some (groqNormalize content), 9 / 10) else (none, 0)
    | none => (none, 0)

def mlLabelTable : List (String × String) :=
  [("news", "News"), ("alert", "Alert"), ("research", "Research"), ("event", "Event")]

/-- `categorize_with_ml(title, description)` (ml_categorizer.py 51-97), with
model availability and the classifier's top `(label, score)` as inputs. -/
def categorize_with_ml (available : Bool) (result : Option (String × ℚ)) :
    Option String × ℚ :=
  if !available then (none, 0)
  else match result with
    | some (label, conf) => (some ((mlLabelTable.lookup label).getD "News"), conf)
    | none => (none, 0)

/-- Modelled from the spec: one strategy of the classification chain —
accept the strategy's category only when its reported confidence exceeds
0.4, otherwise fall through. -/
def chainStep (res : Option String × ℚ) (fallback : String) : String :=
  match res with
  | (some c, conf) => if 2 / 5 < conf then c else fallback
  | (none, _) => fallback

/-- Modelled from the spec: the claimed classification chain — remote-LLM
result first, then the local-model result, then the keyword scorer, first
confident result wins. -/
def chainClassifierSpec (remote localR : Option String × ℚ)
    (title description source url : String) : String :=
  chainStep remote (chainStep localR (categorize_content title description source url))

/-- Claim C2 counterexample: with a configured remote strategy confidently
(0.9 > 0.4) reporting "Event", the claimed chain returns "Event", but the
program's classification — `categorize_content`, which never consults the
strategies — returns "Alert" on the same input. -/
theorem c2_counterexample_no_chain :
    categorize_with_groq "key" (some (200, "Event")) = (some "Event", 9 / 10) ∧
    (2 : ℚ) / 5 < 9 / 10 ∧
    chainClassifierSpec (some "Event", 9 / 10) (none, 0) "Critical threat alert" "" "x" ""
      = "Event" ∧
    categorize_content "Critical threat alert" "" "x" "" = "Alert" := by
  have hg : groqNormalize "Event" = "Event" := by decide
  refine ⟨?_, by norm_num, ?_, by decide⟩
  · unfold categorize_with_groq
    rw [if_neg (by decide)]
    show (if (200 : Nat) = 200 then (some (groqNormalize "Event"), (9 : ℚ) / 10)
      else (none, 0)) = (some "Event", 9 / 10)
    rw [if_pos rfl, hg]
  · unfold chainClassifierSpec chainStep
    show (if (2 : ℚ) / 5 < 9 / 10 then "Event" else _) = "Event"
    rw [if_pos (by norm_num)]

/-- Claim C2 (amended): the classification path never consults the remote or
local strategies; `categorize_content` always equals the claimed chain
evaluated with both strategies unavailable, i.e. the keyword scorer decides
every article, and no 0.4 confidence threshold exists in the code. -/
theorem c2_keyword_only_amended (title description source url : String) :
    categorize_content title description source url =
      chainClassifierSpec (none, 0) (none, 0) title description source url := rfl

end CyberNewsHub

namespace CyberNewsHub

end CyberNewsHub

namespace CyberNewsHub

example : categorize_content "CVE-2024-12345 under active exploitation" "" "x" "" = "Alert" := by
  decide

example : categorize_content "Register now: keynote speaker lineup" "" "x" "" = "Event" := by
  decide

example : categorize_content "" "whatever" "x" "" = "News" := by decide

end CyberNewsHub
